import Mathlib

/-!
Verification of the lead-qualification data models of the echoai API
(`app/models/enhanced_lead.py`, `app/models/lead.py`) and of the
spec-described Lead Qualification Scoring Engine.

Python strings are embedded as `List Char`; `str.strip` is
`pyStrip` (drop whitespace from both ends), `str.lower` is `pyLower`.
Python floats are embedded as `ℚ`, Python ints as `ℤ`,
`datetime` values as `ℤ` (a time axis).  A pydantic model's
validation is embedded as a function returning `Option`:
`none` is a raised `ValidationError`, `some` carries the stored value.
Field constraints declared with `Field(..., ge=, le=, min_length=,
max_length=)` run before `@validator` methods (pydantic v1 order),
and the embeddings below sequence them the same way.
-/

/-- Embedding of a Python `str` as a list of characters. -/
abbrev PyStr := List Char

/-- Whitespace test used by `str.strip`, embedded as `Char.isWhitespace`. -/
def isWS (c : Char) : Bool := c.isWhitespace

/-- Embedding of Python `str.strip()`: drop whitespace from both ends. -/
def pyStrip (s : PyStr) : PyStr :=
  ((s.dropWhile isWS).reverse.dropWhile isWS).reverse

/-- Embedding of Python `str.lower()` (character-wise). -/
def pyLower (s : PyStr) : PyStr := s.map Char.toLower

/-- Embedding of a pydantic ge/le range constraint on a float field:
the value is stored unchanged when inside the range, otherwise the
field fails validation. -/
def rangeField (lo hi v : ℚ) : Option ℚ :=
  if lo ≤ v ∧ v ≤ hi then some v else none

/-- Embedding of a pydantic ge constraint on an int field. -/
def geIntField (lo v : ℤ) : Option ℤ :=
  if lo ≤ v then some v else none

/-- Embedding of a pydantic ge constraint on a float field. -/
def geField (lo v : ℚ) : Option ℚ :=
  if lo ≤ v then some v else none

/-- Embedding of a pydantic max_length constraint on a str field. -/
def maxLenField (n : ℕ) (s : PyStr) : Option PyStr :=
  if s.length ≤ n then some s else none

/-- Model `ConversationMetrics` (`app/models/enhanced_lead.py`): metrics
derived from conversation analysis. -/
structure ConversationMetrics where
  engagement_score : ℚ
  intent_strength : ℚ
  urgency_level : ℚ
  sentiment_score : ℚ
  question_count : ℤ
  response_time_avg : ℚ
  conversation_length : ℤ
deriving Repr, DecidableEq

/-- Embedding of pydantic validation of `ConversationMetrics`: each
field is checked against its declared `ge`/`le` constraints and stored
unchanged on success. -/
def ConversationMetrics.validate (e i u s : ℚ) (q : ℤ) (r : ℚ) (c : ℤ) :
    Option ConversationMetrics := do
  let e ← rangeField 0 1 e
  let i ← rangeField 0 1 i
  let u ← rangeField 0 1 u
  let s ← rangeField (-1) 1 s
  let q ← geIntField 0 q
  let r ← geField 0 r
  let c ← geIntField 0 c
  pure ⟨e, i, u, s, q, r, c⟩

/-- Embedding of the `sentiment_score` field validation of
`ConversationMetrics` on its own (`Field(0.0, ge=-1.0, le=1.0)`). -/
def validateSentimentScore (v : ℚ) : Option ℚ := rangeField (-1) 1 v

/-- Embedding of
`ConversationContextRequest.validate_sentiment_history`
(`app/models/lead.py`): raises unless every score is in `[-1, 1]`,
and returns the list unchanged. -/
def validateSentimentHistory (v : List ℚ) : Option (List ℚ) :=
  if v.all (fun score => decide (-1 ≤ score ∧ score ≤ 1)) then some v
  else none

/-- The clamp applied by `EnhancedLeadData.validate_lead_score`
(`app/models/enhanced_lead.py`): `max(0.0, min(100.0, v))`. -/
def leadScoreClamp (v : ℚ) : ℚ := max 0 (min 100 v)

/-- Embedding of validation of the `lead_score` field of
`EnhancedLeadData`: the declared constraint
`Field(0.0, ge=0.0, le=100.0)` is checked first (pydantic v1 runs
field constraints before post-validators), then the
`validate_lead_score` validator applies the clamp to the value that
passed the constraint. -/
def validateLeadScore (v : ℚ) : Option ℚ := do
  let v ← rangeField 0 100 v
  pure (leadScoreClamp v)

/-- Embedding of the timestamp handling of `EnhancedLeadData` at
validation time `now`: `created_at` takes the caller-supplied value
when present, else defaults to `utcnow()`; the
`set_updated_at` validator (declared with `always=True`) discards any
supplied `updated_at` and stores `utcnow()`. -/
def edlTimestamps (now : ℤ) (created_sup updated_sup : Option ℤ) :
    ℤ × ℤ :=
  let created_at := created_sup.getD now
  let _ := updated_sup
  (created_at, now)

/-- Model `LeadScoringFactors` (`app/models/enhanced_lead.py`): named float
weights for lead scoring. -/
structure LeadScoringFactors where
  engagement_factor : ℚ
  intent_factor : ℚ
  qualification_factor : ℚ
  urgency_factor : ℚ
  fit_factor : ℚ
deriving Repr, DecidableEq

/-- Embedding of pydantic validation of `LeadScoringFactors`: the
model declares its five float fields with `Field(0.0, ...)` and no
`ge`/`le` constraint and no validator, so every tuple of floats is
accepted and stored unchanged. -/
def LeadScoringFactors.validate (e i q u f : ℚ) :
    Option LeadScoringFactors :=
  some ⟨e, i, q, u, f⟩

/-- Model `QualificationData` (`app/models/enhanced_lead.py`): BANT
qualification data, all fields optional strings (plus pain points). -/
structure QualificationData where
  budget : Option PyStr
  authority : Option PyStr
  need : Option PyStr
  timeline : Option PyStr
  company_size : Option PyStr
  industry : Option PyStr
  current_solution : Option PyStr
  pain_points : List PyStr
deriving Repr, DecidableEq

/-- Model `LeadSignals` (`app/models/enhanced_lead.py`): matched keyword
lists per category. -/
structure LeadSignals where
  buying_intent_keywords : List PyStr
  urgency_indicators : List PyStr
  budget_mentions : List PyStr
  authority_indicators : List PyStr
  competitor_mentions : List PyStr
  pain_point_expressions : List PyStr
  timeline_mentions : List PyStr
deriving Repr, DecidableEq

/-- Modelled from the spec: the ideal-customer-profile configuration
(§4.1 fit_factor), absent from the source; target company sizes and
industries the lead is matched against. -/
structure ICPConfig where
  company_sizes : List PyStr
  industries : List PyStr
deriving Repr, DecidableEq

/-- Modelled from the spec: error conditions of the scoring engine
(§4.1/§7), absent from the source. -/
inductive ScoringError where
  | invalidWeightConfiguration
  | missingMetrics
deriving Repr, DecidableEq

/-- Saturating normalization `min(1, x / cap)` used by the factor
computations (spec §4.1: saturating contributions, diminishing
returns above a cap). -/
def satCap (cap x : ℚ) : ℚ := min 1 (x / cap)

/-- Modelled from the spec: engagement factor (§4.1), absent from the
source — derived from `engagement_score`, `question_count`
(diminishing returns above a cap) and `conversation_length`. -/
def engagementFactor (m : ConversationMetrics) : ℚ :=
  (m.engagement_score + satCap 5 (m.question_count : ℚ)
    + satCap 10 (m.conversation_length : ℚ)) / 3

/-- Modelled from the spec: intent factor (§4.1), absent from the
source — count of distinct buying-intent keywords, saturating. -/
def intentFactor (s : LeadSignals) : ℚ :=
  satCap 3 (s.buying_intent_keywords.dedup.length : ℚ)

/-- Modelled from the spec: qualification factor (§4.1), absent from
the source — 0.25 per populated BANT field, counted independently. -/
def qualificationFactor (q : QualificationData) : ℚ :=
  (((if q.budget.isSome then 1 else 0)
    + (if q.authority.isSome then 1 else 0)
    + (if q.need.isSome then 1 else 0)
    + (if q.timeline.isSome then 1 else 0) : ℚ)) / 4

/-- Modelled from the spec: urgency factor (§4.1), absent from the
source — urgency-indicator count plus explicit timeline mentions,
saturating like intent. -/
def urgencyFactor (s : LeadSignals) : ℚ :=
  satCap 3 ((s.urgency_indicators.length + s.timeline_mentions.length : ℕ) : ℚ)

/-- Modelled from the spec: fit factor (§4.1), absent from the
source — company-size/industry signals matched against the ICP
config; absent ICP config defaults to neutral `0.5`. -/
def fitFactor (icp : Option ICPConfig) (q : QualificationData) : ℚ :=
  match icp with
  | none => 1 / 2
  | some cfg =>
    (((if (q.company_size.map cfg.company_sizes.contains).getD false
        then 1 else 0)
      + (if (q.industry.map cfg.industries.contains).getD false
        then 1 else 0) : ℚ)) / 2

/-- Modelled from the spec: the weight-configuration check of the
scoring engine (§4.1/§7), absent from the source — a weight
configuration is invalid when some weight is negative or the sum of
the weights is zero (for nonnegative weights, the sum is zero exactly
when all weights are zero). -/
def invalidWeights (w : LeadScoringFactors) : Prop :=
  w.engagement_factor < 0 ∨ w.intent_factor < 0
  ∨ w.qualification_factor < 0 ∨ w.urgency_factor < 0
  ∨ w.fit_factor < 0
  ∨ w.engagement_factor + w.intent_factor + w.qualification_factor
    + w.urgency_factor + w.fit_factor = 0

instance : DecidablePred invalidWeights := fun w => by
  unfold invalidWeights; infer_instance

/-- Modelled from the spec: `compute_score` (§4.1), absent from the
source.  Validates the weights (fails with
`InvalidWeightConfiguration` when a weight is negative or all weights
are zero, returning no partial score), computes each factor in
`[0,1]`, combines them as a weighted sum normalized by the sum of the
active weights, scales to `[0,100]` and clamps with
`max(0, min(100, value))`. -/
def compute_score (m : ConversationMetrics) (s : LeadSignals)
    (q : QualificationData) (icp : Option ICPConfig)
    (w : LeadScoringFactors) :
    Except ScoringError (ℚ × List (String × ℚ)) :=
  if invalidWeights w then
    .error .invalidWeightConfiguration
  else
    .ok (max 0 (min 100 ((w.engagement_factor * engagementFactor m
        + w.intent_factor * intentFactor s
        + w.qualification_factor * qualificationFactor q
        + w.urgency_factor * urgencyFactor s
        + w.fit_factor * fitFactor icp q)
        / (w.engagement_factor + w.intent_factor
          + w.qualification_factor + w.urgency_factor + w.fit_factor)
        * 100)),
      [("engagement", engagementFactor m), ("intent", intentFactor s),
       ("qualification", qualificationFactor q),
       ("urgency", urgencyFactor s), ("fit", fitFactor icp q)])

/-- Model `QualificationStage` (`app/models/enhanced_lead.py`): lead
qualification stages. -/
inductive QualificationStage where
  | initial_interest
  | need_assessment
  | budget_qualification
  | authority_verification
  | timeline_discussion
  | qualified
  | disqualified
deriving Repr, DecidableEq, Fintype

/-- Position of a stage in the forward order of the pipeline (spec
§4.2). -/
def QualificationStage.idx : QualificationStage → ℕ
  | .initial_interest => 0
  | .need_assessment => 1
  | .budget_qualification => 2
  | .authority_verification => 3
  | .timeline_discussion => 4
  | .qualified => 5
  | .disqualified => 6

/-- Successor stage in the forward order (spec §4.2). -/
def QualificationStage.next : QualificationStage → QualificationStage
  | .initial_interest => .need_assessment
  | .need_assessment => .budget_qualification
  | .budget_qualification => .authority_verification
  | .authority_verification => .timeline_discussion
  | .timeline_discussion => .qualified
  | .qualified => .qualified
  | .disqualified => .disqualified

/-- Modelled from the spec: the qualification-stage transition
function (§4.2), absent from the source.  `QUALIFIED` and
`DISQUALIFIED` are terminal; from a non-terminal stage the
disqualification rule (when triggered) moves to `DISQUALIFIED`,
otherwise the stage advances one step when the advancement condition
(BANT field populated and score above the stage threshold) holds, and
stays put when it does not. -/
def nextStage (s : QualificationStage) (advance disqualify : Bool) :
    QualificationStage :=
  match s with
  | .qualified => .qualified
  | .disqualified => .disqualified
  | s =>
    if disqualify then .disqualified
    else if advance then s.next
    else s

/-- A run of the stage machine over a sequence of per-pass decisions
(advance?, disqualify?), returning every visited stage in order. -/
def stageTrace (s : QualificationStage) :
    List (Bool × Bool) → List QualificationStage
  | [] => [s]
  | p :: rest => s :: stageTrace (nextStage s p.1 p.2) rest

/-- Model `LeadPriority` (`app/models/lead.py`). -/
inductive LeadPriority where
  | low | medium | high | urgent
deriving Repr, DecidableEq

/-- Model `LeadType` (`app/models/lead.py`). -/
inductive LeadType where
  | demo_request | enterprise_inquiry | bulk_order | pricing_inquiry
  | support_escalation | feature_request | general_inquiry
deriving Repr, DecidableEq

/-- Embedding of `CRMLeadData.validate_email` (`app/models/lead.py`):
`None` and whitespace-only strings pass through unchanged; otherwise
the string must contain `'@'` (else `ValidationError`) and is stored
stripped and lowercased. -/
def validate_email : Option PyStr → Option (Option PyStr)
  | none => some none
  | some v =>
    if pyStrip v ≠ [] then
      if v.contains '@' then some (some (pyLower (pyStrip v)))
      else none
    else some (some v)

/-- Embedding of `CRMLeadData.validate_phone` (`app/models/lead.py`):
`None` and whitespace-only strings pass through unchanged; otherwise
the digits of the string must number at least 10 (else
`ValidationError`) and the string is stored stripped. -/
def validate_phone : Option PyStr → Option (Option PyStr)
  | none => some none
  | some v =>
    if pyStrip v ≠ [] then
      if (v.filter Char.isDigit).length < 10 then none
      else some (some (pyStrip v))
    else some (some v)

/-- Embedding of validation of `LeadAnalysisRequest.message`
(`app/models/lead.py`): the declared constraints
`min_length=1, max_length=2000` run first, then the
`validate_message` validator raises when the message is empty or
whitespace-only and stores the stripped message. -/
def validate_message (m : PyStr) : Option PyStr :=
  if 1 ≤ m.length ∧ m.length ≤ 2000 then
    if m = [] ∨ pyStrip m = [] then none
    else some (pyStrip m)
  else none

/-- Model `LeadScoreResponse` (`app/models/lead.py`), restricted to its
typed fields; the `Dict[str, Any]` carrier fields
(`extracted_data`, `crm_mapping`) are unconstrained and omitted. -/
structure LeadScoreResponse where
  total_score : ℚ
  priority : LeadPriority
  lead_type : LeadType
  confidence : ℚ
  should_qualify : Bool
  factors : List (String × ℚ)
  analyzed_at : PyStr
deriving Repr, DecidableEq

/-- Embedding of pydantic validation of `LeadScoreResponse`:
`total_score` and `confidence` carry `ge=0.0, le=1.0` constraints;
the other fields have no constraints. -/
def LeadScoreResponse.validate (ts : ℚ) (p : LeadPriority)
    (lt : LeadType) (conf : ℚ) (sq : Bool)
    (factors : List (String × ℚ)) (at_ : PyStr) :
    Option LeadScoreResponse := do
  let ts ← rangeField 0 1 ts
  let conf ← rangeField 0 1 conf
  pure ⟨ts, p, lt, conf, sq, factors, at_⟩

/-- Model `CRMLeadData` (`app/models/lead.py`), restricted to its typed
fields; the `Dict[str, float]` field `scoring_factors` is kept as an
association list. -/
structure CRMLeadData where
  lead_source : PyStr
  lead_score : ℚ
  lead_priority : LeadPriority
  lead_type : LeadType
  confidence : ℚ
  email : Option PyStr
  phone : Option PyStr
  name : Option PyStr
  company : Option PyStr
  original_message : PyStr
  follow_up_action : Option PyStr
  qualification_date : PyStr
  demo_requested : Bool
  enterprise_inquiry : Bool
  bulk_order_inquiry : Bool
  scoring_factors : List (String × ℚ)
  conversation_id : PyStr
  chatbot_id : Option PyStr
deriving Repr, DecidableEq

/-- Embedding of pydantic validation of `CRMLeadData`: `lead_score`
and `confidence` carry `ge=0.0, le=1.0` constraints,
`original_message` carries `max_length=500`, and the `email` and
`phone` validators run on their fields; the remaining fields have no
constraints. -/
def CRMLeadData.validate (src : PyStr) (score : ℚ) (p : LeadPriority)
    (lt : LeadType) (conf : ℚ) (email phone nm company : Option PyStr)
    (msg : PyStr) (fua : Option PyStr) (qd : PyStr)
    (demo ent bulk : Bool) (factors : List (String × ℚ))
    (cid : PyStr) (bid : Option PyStr) : Option CRMLeadData := do
  let score ← rangeField 0 1 score
  let conf ← rangeField 0 1 conf
  let msg ← maxLenField 500 msg
  let email ← validate_email email
  let phone ← validate_phone phone
  pure ⟨src, score, p, lt, conf, email, phone, nm, company, msg,
    fua, qd, demo, ent, bulk, factors, cid, bid⟩

/-- Single-step correctness predicate for the stage machine: a
transition never moves backwards unless it lands on `DISQUALIFIED`,
and the terminal stages are never left. -/
def stepOK (a b : QualificationStage) : Prop :=
  (b ≠ .disqualified → a.idx ≤ b.idx)
  ∧ ((a = .qualified ∨ a = .disqualified) → b = a)

instance : ∀ a b, Decidable (stepOK a b) := fun a b => by
  unfold stepOK; infer_instance

theorem rangeField_eq_some {lo hi v r : ℚ} :
    rangeField lo hi v = some r ↔ (lo ≤ v ∧ v ≤ hi) ∧ r = v := by
  unfold rangeField
  split_ifs with h <;> simp [h, eq_comm]

theorem geField_eq_some {lo v r : ℚ} :
    geField lo v = some r ↔ lo ≤ v ∧ r = v := by
  unfold geField
  split_ifs with h <;> simp [h, eq_comm]

theorem geIntField_eq_some {lo v r : ℤ} :
    geIntField lo v = some r ↔ lo ≤ v ∧ r = v := by
  unfold geIntField
  split_ifs with h <;> simp [h, eq_comm]

/-- C1 (counterexample): the claim says validation of `lead_score`
succeeds on every float and stores the clamped value; but at `v = 150`
the field's `ge`/`le` constraints reject the value (pydantic v1 runs
them before the clamping validator), so validation fails even though
the clamp of `150` is `100`. -/
theorem C1_counterexample :
    validateLeadScore 150 = none ∧ leadScoreClamp 150 = 100 := by
  constructor
  · unfold validateLeadScore rangeField
    norm_num
  · unfold leadScoreClamp
    rw [min_eq_left (by norm_num), max_eq_right (by norm_num)]

/-- C1 (amended): validation of `lead_score` succeeds exactly for
values already in `[0, 100]`; the stored score equals the supplied
value (so the clamp in `validate_lead_score` is a no-op on values
that reach it), it always satisfies `0 ≤ lead_score ≤ 100`, and the
clamp is idempotent on every stored value. -/
theorem C1_lead_score_validation :
    ∀ v : ℚ, ((∃ r, validateLeadScore v = some r) ↔ 0 ≤ v ∧ v ≤ 100)
      ∧ ∀ r, validateLeadScore v = some r →
        r = v ∧ 0 ≤ r ∧ r ≤ 100 ∧ leadScoreClamp r = r := by
  intro v
  have hval : ∀ r, validateLeadScore v = some r ↔
      (0 ≤ v ∧ v ≤ 100) ∧ r = leadScoreClamp v := by
    intro r
    unfold validateLeadScore
    rw [show (do
      let v ← rangeField 0 100 v
      pure (leadScoreClamp v) : Option ℚ)
      = (rangeField 0 100 v).bind (fun x => some (leadScoreClamp x))
      from rfl]
    rw [Option.bind_eq_some]
    constructor
    · rintro ⟨a, ha, hfa⟩
      obtain ⟨hb, rfl⟩ := rangeField_eq_some.mp ha
      exact ⟨hb, (Option.some_injective _ hfa).symm⟩
    · rintro ⟨hb, rfl⟩
      exact ⟨v, rangeField_eq_some.mpr ⟨hb, rfl⟩, rfl⟩
  have hclamp : 0 ≤ v ∧ v ≤ 100 → leadScoreClamp v = v := by
    rintro ⟨h0, h100⟩
    unfold leadScoreClamp
    rw [min_eq_right h100, max_eq_right h0]
  constructor
  · constructor
    · rintro ⟨r, hr⟩
      exact ((hval r).mp hr).1
    · intro h
      exact ⟨leadScoreClamp v, (hval _).mpr ⟨h, rfl⟩⟩
  · intro r hr
    obtain ⟨h, rfl⟩ := (hval r).mp hr
    rw [hclamp h]
    exact ⟨rfl, h.1, h.2, hclamp h⟩

/-- C1 (witness): at `v = 50` validation succeeds and stores `50`,
which the clamp leaves unchanged. -/
theorem C1_witness :
    (0:ℚ) ≤ 50 ∧ (50:ℚ) ≤ 100 ∧
      ∀ r, validateLeadScore 50 = some r →
        r = 50 ∧ 0 ≤ r ∧ r ≤ 100 ∧ leadScoreClamp r = r :=
  ⟨by norm_num, by norm_num, (C1_lead_score_validation 50).2⟩

/-- C2 (counterexample): the claim says `updated_at ≥ created_at`
holds even for caller-supplied timestamps; but constructing at time
`0` with a caller-supplied `created_at = 1` (a future time) stores
`updated_at = 0 < 1 = created_at`. -/
theorem C2_counterexample :
    (edlTimestamps 0 (some 1) none).2 < (edlTimestamps 0 (some 1) none).1 := by
  unfold edlTimestamps
  norm_num

/-- C2 (amended): `set_updated_at` (with `always=True`) discards any
supplied `updated_at` and stores the validation time, so `updated_at`
is refreshed on every validation; the invariant
`updated_at ≥ created_at` holds whenever `created_at` is defaulted or
the caller-supplied `created_at` is not in the future. -/
theorem C2_timestamps :
    ∀ (now : ℤ) (cs us : Option ℤ),
      (edlTimestamps now cs us).2 = now
      ∧ (cs.getD now ≤ now →
          (edlTimestamps now cs us).1 ≤ (edlTimestamps now cs us).2)
      ∧ (cs = none →
          (edlTimestamps now cs us).1 = (edlTimestamps now cs us).2) := by
  intro now cs us
  refine ⟨rfl, fun h => h, fun h => by simp [edlTimestamps, h]⟩

/-- C2 (witness): at validation time `5` with `created_at` supplied
as `3` (not in the future), `updated_at = 5 ≥ 3 = created_at`. -/
theorem C2_witness :
    ((some 3 : Option ℤ).getD 5 ≤ 5) ∧
      (edlTimestamps 5 (some 3) (some 0)).1 ≤ (edlTimestamps 5 (some 3) (some 0)).2 :=
  ⟨by norm_num, (C2_timestamps 5 (some 3) (some 0)).2.1 (by norm_num)⟩

/-- C3: a sentiment value outside `[-1, 1]` fails validation (both
for `ConversationMetrics.sentiment_score` and for every element of
`ConversationContextRequest.sentiment_history`) — nothing is stored,
so nothing is silently clamped — while in-range sentiment values are
stored unchanged. -/
theorem C3_sentiment_boundary :
    ∀ (v : ℚ) (l : List ℚ),
      (¬(-1 ≤ v ∧ v ≤ 1) → validateSentimentScore v = none)
      ∧ ((-1 ≤ v ∧ v ≤ 1) → validateSentimentScore v = some v)
      ∧ ((∃ x ∈ l, ¬(-1 ≤ x ∧ x ≤ 1)) → validateSentimentHistory l = none)
      ∧ ((∀ x ∈ l, -1 ≤ x ∧ x ≤ 1) → validateSentimentHistory l = some l) := by
  intro v l
  refine ⟨fun h => ?_, fun h => ?_, fun h => ?_, fun h => ?_⟩
  · simp [validateSentimentScore, rangeField, h]
  · simp [validateSentimentScore, rangeField, h]
  · unfold validateSentimentHistory
    rw [if_neg]
    simp only [List.all_eq_true, decide_eq_true_eq]
    obtain ⟨x, hx, hxr⟩ := h
    intro hall
    exact hxr (hall x hx)
  · unfold validateSentimentHistory
    rw [if_pos]
    simp only [List.all_eq_true, decide_eq_true_eq]
    exact h

/-- C3 (witness): `3/2` is rejected as a sentiment score and as a
sentiment-history element; `1/2` is stored unchanged. -/
theorem C3_witness :
    validateSentimentScore (3/2) = none
    ∧ validateSentimentScore (1/2) = some (1/2)
    ∧ validateSentimentHistory [3/2] = none
    ∧ validateSentimentHistory [1/2] = some [1/2] :=
  ⟨(C3_sentiment_boundary (3/2) []).1 (by norm_num),
   (C3_sentiment_boundary (1/2) []).2.1 (by norm_num),
   (C3_sentiment_boundary 0 [3/2]).2.2.1 ⟨3/2, by norm_num⟩,
   (C3_sentiment_boundary 0 [1/2]).2.2.2 (by norm_num)⟩

/-- C4: construction of `ConversationMetrics` succeeds exactly when
`engagement_score`, `intent_strength`, `urgency_level` lie in
`[0, 1]`, `sentiment_score` lies in `[-1, 1]`, and `question_count`,
`response_time_avg`, `conversation_length` are nonnegative; on
success every field is stored exactly as supplied. -/
theorem C4_conversation_metrics_validation :
    ∀ (e i u s : ℚ) (q : ℤ) (r : ℚ) (c : ℤ),
      ((∃ m, ConversationMetrics.validate e i u s q r c = some m) ↔
        (0 ≤ e ∧ e ≤ 1) ∧ (0 ≤ i ∧ i ≤ 1) ∧ (0 ≤ u ∧ u ≤ 1)
        ∧ (-1 ≤ s ∧ s ≤ 1) ∧ 0 ≤ q ∧ 0 ≤ r ∧ 0 ≤ c)
      ∧ ∀ m, ConversationMetrics.validate e i u s q r c = some m →
        m = ⟨e, i, u, s, q, r, c⟩ := by
  intro e i u s q r c
  have key : ∀ m, ConversationMetrics.validate e i u s q r c = some m ↔
      ((0 ≤ e ∧ e ≤ 1) ∧ (0 ≤ i ∧ i ≤ 1) ∧ (0 ≤ u ∧ u ≤ 1)
        ∧ (-1 ≤ s ∧ s ≤ 1) ∧ 0 ≤ q ∧ 0 ≤ r ∧ 0 ≤ c)
      ∧ m = ⟨e, i, u, s, q, r, c⟩ := by
    intro m
    unfold ConversationMetrics.validate
    simp only [bind, Option.bind_eq_some, rangeField_eq_some,
      geField_eq_some, geIntField_eq_some, pure, Option.some.injEq]
    constructor
    · rintro ⟨e', ⟨he, rfl⟩, i', ⟨hi, rfl⟩, u', ⟨hu, rfl⟩, s', ⟨hs, rfl⟩,
        q', ⟨hq, rfl⟩, r', ⟨hr, rfl⟩, c', ⟨hc, rfl⟩, hm⟩
      exact ⟨⟨he, hi, hu, hs, hq, hr, hc⟩, hm.symm⟩
    · rintro ⟨⟨he, hi, hu, hs, hq, hr, hc⟩, rfl⟩
      exact ⟨e, ⟨he, rfl⟩, i, ⟨hi, rfl⟩, u, ⟨hu, rfl⟩, s, ⟨hs, rfl⟩,
        q, ⟨hq, rfl⟩, r, ⟨hr, rfl⟩, c, ⟨hc, rfl⟩, rfl⟩
  constructor
  · constructor
    · rintro ⟨m, hm⟩
      exact ((key m).mp hm).1
    · intro h
      exact ⟨⟨e, i, u, s, q, r, c⟩, (key _).mpr ⟨h, rfl⟩⟩
  · intro m hm
    exact ((key m).mp hm).2

/-- C4 (witness): the all-zero metrics tuple satisfies every
constraint and is stored exactly as supplied. -/
theorem C4_witness :
    ∀ m, ConversationMetrics.validate 0 0 0 0 0 0 0 = some m →
      m = ⟨0, 0, 0, 0, 0, 0, 0⟩ :=
  (C4_conversation_metrics_validation 0 0 0 0 0 0 0).2

/-- C5 (counterexample): the claim says no component of the system
accepts a negative scoring weight; but the `LeadScoringFactors`
pydantic model declares its weights with no `ge` constraint and no
validator, so a configuration with `engagement_factor = -1` is
accepted and stored unchanged. -/
theorem C5_counterexample :
    LeadScoringFactors.validate (-1) 0 0 0 0 = some ⟨-1, 0, 0, 0, 0⟩ :=
  rfl

/-- C5 (amended): the scoring pass itself fails with
`InvalidWeightConfiguration` — returning no partial score — whenever
some weight is negative or all weights are zero; rejection happens in
`compute_score`, not in the `LeadScoringFactors` model, which accepts
every tuple of floats unchanged. -/
theorem C5_weight_validation :
    ∀ (m : ConversationMetrics) (s : LeadSignals)
      (q : QualificationData) (icp : Option ICPConfig)
      (w : LeadScoringFactors),
      ((w.engagement_factor < 0 ∨ w.intent_factor < 0
        ∨ w.qualification_factor < 0 ∨ w.urgency_factor < 0
        ∨ w.fit_factor < 0
        ∨ (w.engagement_factor = 0 ∧ w.intent_factor = 0
          ∧ w.qualification_factor = 0 ∧ w.urgency_factor = 0
          ∧ w.fit_factor = 0)) →
        compute_score m s q icp w
          = .error .invalidWeightConfiguration)
      ∧ ∀ e i qf u f : ℚ,
        LeadScoringFactors.validate e i qf u f = some ⟨e, i, qf, u, f⟩ := by
  intro m s q icp w
  constructor
  · intro h
    have hw : invalidWeights w := by
      unfold invalidWeights
      rcases h with h | h | h | h | h | ⟨h1, h2, h3, h4, h5⟩
      any_goals tauto
      have hz : w.engagement_factor + w.intent_factor
          + w.qualification_factor + w.urgency_factor + w.fit_factor = 0 := by
        rw [h1, h2, h3, h4, h5]
        norm_num
      tauto
    unfold compute_score
    rw [if_pos hw]
  · intro e i qf u f
    rfl

/-- C5 (witness): with `engagement_factor = -1` the scoring pass
aborts with `InvalidWeightConfiguration`. -/
theorem C5_witness :
    compute_score ⟨0, 0, 0, 0, 0, 0, 0⟩ ⟨[], [], [], [], [], [], []⟩
        ⟨none, none, none, none, none, none, none, []⟩ none
        ⟨-1, 0, 0, 0, 0⟩
      = .error .invalidWeightConfiguration :=
  (C5_weight_validation ⟨0, 0, 0, 0, 0, 0, 0⟩ ⟨[], [], [], [], [], [], []⟩
    ⟨none, none, none, none, none, none, none, []⟩ none
    ⟨-1, 0, 0, 0, 0⟩).1 (by norm_num)

/-- C6: for every input tuple and every weight configuration the
scoring pass accepts, the returned score lies in `[0, 100]`: it is
the weighted factor sum normalized by the sum of the weights, scaled
to `[0, 100]` and clamped with `max(0, min(100, value))`. -/
theorem C6_score_range :
    ∀ (m : ConversationMetrics) (s : LeadSignals)
      (q : QualificationData) (icp : Option ICPConfig)
      (w : LeadScoringFactors) (r : ℚ × List (String × ℚ)),
      compute_score m s q icp w = .ok r → 0 ≤ r.1 ∧ r.1 ≤ 100 := by
  intro m s q icp w r h
  unfold compute_score at h
  by_cases hc : invalidWeights w
  · rw [if_pos hc] at h
    exact Except.noConfusion h
  · rw [if_neg hc] at h
    have h' := Except.ok.inj h
    rw [← h']
    exact ⟨le_max_left 0 _, max_le (by norm_num) (min_le_left _ _)⟩

/-- C6 (witness): with unit weights and empty inputs the scoring pass
returns the neutral-fit baseline score `10`, which lies in
`[0, 100]`. -/
theorem C6_witness :
    0 ≤ (((10 : ℚ), [("engagement", (0 : ℚ)), ("intent", 0),
        ("qualification", 0), ("urgency", 0), ("fit", 1/2)]).1)
    ∧ (((10 : ℚ), [("engagement", (0 : ℚ)), ("intent", 0),
        ("qualification", 0), ("urgency", 0), ("fit", 1/2)]).1) ≤ 100 :=
  C6_score_range ⟨0, 0, 0, 0, 0, 0, 0⟩ ⟨[], [], [], [], [], [], []⟩
    ⟨none, none, none, none, none, none, none, []⟩ none ⟨1, 1, 1, 1, 1⟩
    _ (by norm_num [compute_score, invalidWeights, engagementFactor,
      intentFactor, qualificationFactor, urgencyFactor, fitFactor,
      satCap])

theorem stepOK_nextStage :
    ∀ (s : QualificationStage) (a d : Bool), stepOK s (nextStage s a d) := by
  decide

/-- C7: along every run of the qualification-stage machine, each
transition either lands on `DISQUALIFIED` or moves to a stage no
earlier in the pipeline order, and no transition leaves the terminal
stages `QUALIFIED` and `DISQUALIFIED`. -/
theorem C7_stage_machine :
    ∀ (l : List (Bool × Bool)) (s : QualificationStage),
      List.Chain' stepOK (stageTrace s l) := by
  intro l
  induction l with
  | nil =>
    intro s
    simp [stageTrace]
  | cons p rest ih =>
    intro s
    cases rest with
    | nil =>
      simp only [stageTrace, List.chain'_cons, List.chain'_singleton,
        and_true]
      exact stepOK_nextStage s p.1 p.2
    | cons pq r =>
      have h1 := ih (nextStage s p.1 p.2)
      simp only [stageTrace] at h1 ⊢
      exact List.chain'_cons.mpr ⟨stepOK_nextStage s p.1 p.2, h1⟩

theorem head?_dropWhile_ws :
    ∀ (l : PyStr) (c : Char),
      (l.dropWhile isWS).head? = some c → isWS c = false := by
  intro l
  induction l with
  | nil => simp
  | cons a t ih =>
    intro c h
    rw [List.dropWhile_cons] at h
    by_cases ha : isWS a
    · rw [if_pos ha] at h
      exact ih c h
    · rw [if_neg ha] at h
      simp only [List.head?_cons, Option.some.injEq] at h
      rw [← h]
      exact Bool.not_eq_true _ ▸ eq_false_of_ne_true (fun hh => ha hh)

theorem getLast?_of_suffix {u v : PyStr} (h : u <:+ v) (hu : u ≠ []) :
    u.getLast? = v.getLast? := by
  obtain ⟨t, rfl⟩ := h
  exact (List.getLast?_append_of_ne_nil t hu).symm

theorem pyStrip_eq_nil_iff (l : PyStr) :
    pyStrip l = [] ↔ ∀ c ∈ l, isWS c = true := by
  unfold pyStrip
  rw [List.reverse_eq_nil_iff, List.dropWhile_eq_nil_iff]
  simp only [List.mem_reverse]
  constructor
  · intro h x hx
    rcases List.mem_append.mp
        ((List.takeWhile_append_dropWhile (p := isWS) (l := l)) ▸ hx) with
      hx' | hx'
    · exact List.mem_takeWhile_imp hx'
    · exact h x hx'
  · intro h x hx
    exact h x ((List.dropWhile_suffix isWS).subset hx)

theorem pyStrip_head_not_ws (l : PyStr) (c : Char)
    (h : (pyStrip l).head? = some c) : isWS c = false := by
  unfold pyStrip at h
  rw [List.head?_reverse] at h
  have hu : (l.dropWhile isWS).reverse.dropWhile isWS ≠ [] := by
    intro hnil
    rw [hnil] at h
    exact Option.noConfusion h
  rw [getLast?_of_suffix (List.dropWhile_suffix isWS) hu,
    List.getLast?_reverse] at h
  exact head?_dropWhile_ws l c h

theorem pyStrip_getLast_not_ws (l : PyStr) (c : Char)
    (h : (pyStrip l).getLast? = some c) : isWS c = false := by
  unfold pyStrip at h
  rw [List.getLast?_reverse] at h
  exact head?_dropWhile_ws (l.dropWhile isWS).reverse c h

/-- C8: `validate_email` passes `None` through; it passes a
whitespace-only string through unchanged; and on any other string it
succeeds exactly when the string contains `'@'`, storing the string
stripped of surrounding whitespace and lowercased. -/
theorem C8_email_validation :
    ∀ v : PyStr,
      validate_email none = some none
      ∧ (pyStrip v = [] → validate_email (some v) = some (some v))
      ∧ (pyStrip v ≠ [] →
          ((∃ r, validate_email (some v) = some r) ↔
            v.contains '@' = true)
          ∧ (v.contains '@' = true →
              validate_email (some v)
                = some (some (pyLower (pyStrip v))))
          ∧ (v.contains '@' = false → validate_email (some v) = none)) := by
  intro v
  refine ⟨rfl, fun h => ?_, fun h => ?_⟩
  · simp only [validate_email]
    rw [if_neg (not_not_intro h)]
  · simp only [validate_email]
    rw [if_pos h]
    by_cases hat : v.contains '@' = true
    · rw [if_pos hat]
      refine ⟨⟨fun _ => hat, fun _ => ⟨_, rfl⟩⟩, fun _ => rfl, fun hf => ?_⟩
      rw [hf] at hat
      exact Bool.noConfusion hat
    · rw [if_neg hat]
      refine ⟨⟨fun hex => ?_, fun hh => absurd hh hat⟩,
        fun hh => absurd hh hat, fun _ => rfl⟩
      obtain ⟨r, hr⟩ := hex
      exact Option.noConfusion hr

/-- C8 (witness): `" A@B"` is neither `None` nor whitespace-only and
contains `'@'`, so it validates to its stripped, lowercased form. -/
theorem C8_witness :
    validate_email (some (' ' :: 'A' :: '@' :: 'B' :: []))
      = some (some (pyLower (pyStrip (' ' :: 'A' :: '@' :: 'B' :: [])))) :=
  ((C8_email_validation (' ' :: 'A' :: '@' :: 'B' :: [])).2.2
    (by decide)).2.1 (by decide)

/-- C9: validation of `LeadAnalysisRequest.message` succeeds exactly
when the message has between 1 and 2000 characters and at least one
non-whitespace character; the stored message is the input stripped of
surrounding whitespace, hence non-empty and neither starting nor
ending with whitespace. -/
theorem C9_message_validation :
    ∀ m : PyStr,
      ((∃ r, validate_message m = some r) ↔
        1 ≤ m.length ∧ m.length ≤ 2000 ∧ ∃ c ∈ m, isWS c = false)
      ∧ ∀ r, validate_message m = some r →
        r = pyStrip m ∧ r ≠ []
        ∧ (∀ c, r.head? = some c → isWS c = false)
        ∧ (∀ c, r.getLast? = some c → isWS c = false) := by
  intro m
  by_cases h1 : 1 ≤ m.length ∧ m.length ≤ 2000
  · by_cases h2 : m = [] ∨ pyStrip m = []
    · have hv : validate_message m = none := by
        unfold validate_message
        rw [if_pos h1, if_pos h2]
      rw [hv]
      have hstrip : pyStrip m = [] := by
        rcases h2 with h2 | h2
        · rw [h2]; rfl
        · exact h2
      constructor
      · constructor
        · rintro ⟨r, hr⟩
          exact Option.noConfusion hr
        · rintro ⟨_, _, c, hc, hcw⟩
          rw [(pyStrip_eq_nil_iff m).mp hstrip c hc] at hcw
          exact Bool.noConfusion hcw
      · intro r hr
        exact Option.noConfusion hr
    · push_neg at h2
      obtain ⟨hm, hs⟩ := h2
      have hv : validate_message m = some (pyStrip m) := by
        unfold validate_message
        rw [if_pos h1, if_neg]
        rintro (h | h)
        · exact hm h
        · exact hs h
      rw [hv]
      constructor
      · constructor
        · intro _
          refine ⟨h1.1, h1.2, ?_⟩
          by_contra hno
          push_neg at hno
          apply hs
          rw [pyStrip_eq_nil_iff]
          intro c hc
          cases hb : isWS c
          · exact absurd hb (hno c hc)
          · rfl
        · intro _
          exact ⟨pyStrip m, rfl⟩
      · intro r hr
        have hr' := Option.some.inj hr
        refine ⟨hr'.symm, ?_, ?_, ?_⟩
        · rw [← hr']
          exact hs
        · intro c hc
          rw [← hr'] at hc
          exact pyStrip_head_not_ws m c hc
        · intro c hc
          rw [← hr'] at hc
          exact pyStrip_getLast_not_ws m c hc
  · have hv : validate_message m = none := by
      unfold validate_message
      rw [if_neg h1]
    rw [hv]
    constructor
    · constructor
      · rintro ⟨r, hr⟩
        exact Option.noConfusion hr
      · rintro ⟨ha, hb, _⟩
        exact absurd ⟨ha, hb⟩ h1
    · intro r hr
      exact Option.noConfusion hr

/-- C9 (witness): `" hi "` has length 4, contains non-whitespace
characters, and validates to its stripped form, which is non-empty
with no boundary whitespace. -/
theorem C9_witness :
    ∀ r, validate_message (' ' :: 'h' :: 'i' :: ' ' :: []) = some r →
      r = pyStrip (' ' :: 'h' :: 'i' :: ' ' :: []) ∧ r ≠ []
      ∧ (∀ c, r.head? = some c → isWS c = false)
      ∧ (∀ c, r.getLast? = some c → isWS c = false) :=
  (C9_message_validation (' ' :: 'h' :: 'i' :: ' ' :: [])).2

/-- C10: the downstream output contracts carry scores on a 0-to-1
scale — a successfully constructed `LeadScoreResponse` has
`total_score` and `confidence` in `[0, 1]`, and a successfully
constructed `CRMLeadData` has `lead_score` and `confidence` in
`[0, 1]`. -/
theorem C10_downstream_unit_scale :
    (∀ (ts : ℚ) (p : LeadPriority) (lt : LeadType) (conf : ℚ)
      (sq : Bool) (factors : List (String × ℚ)) (at_ : PyStr)
      (r : LeadScoreResponse),
      LeadScoreResponse.validate ts p lt conf sq factors at_ = some r →
        0 ≤ r.total_score ∧ r.total_score ≤ 1
        ∧ 0 ≤ r.confidence ∧ r.confidence ≤ 1)
    ∧ (∀ (src : PyStr) (score : ℚ) (p : LeadPriority) (lt : LeadType)
      (conf : ℚ) (email phone nm company : Option PyStr) (msg : PyStr)
      (fua : Option PyStr) (qd : PyStr) (demo ent bulk : Bool)
      (factors : List (String × ℚ)) (cid : PyStr) (bid : Option PyStr)
      (d : CRMLeadData),
      CRMLeadData.validate src score p lt conf email phone nm company
          msg fua qd demo ent bulk factors cid bid = some d →
        0 ≤ d.lead_score ∧ d.lead_score ≤ 1
        ∧ 0 ≤ d.confidence ∧ d.confidence ≤ 1) := by
  constructor
  · intro ts p lt conf sq factors at_ r h
    unfold LeadScoreResponse.validate at h
    simp only [bind, Option.bind_eq_some, rangeField_eq_some, pure,
      Option.some.injEq] at h
    obtain ⟨ts', ⟨hts, rfl⟩, conf', ⟨hconf, rfl⟩, hr⟩ := h
    rw [← hr]
    exact ⟨hts.1, hts.2, hconf.1, hconf.2⟩
  · intro src score p lt conf email phone nm company msg fua qd demo
      ent bulk factors cid bid d h
    unfold CRMLeadData.validate at h
    simp only [bind, pure] at h
    rcases Option.bind_eq_some.mp h with ⟨score', hsc, h⟩
    rcases Option.bind_eq_some.mp h with ⟨conf', hcf, h⟩
    rcases Option.bind_eq_some.mp h with ⟨msg', hmm, h⟩
    rcases Option.bind_eq_some.mp h with ⟨email', hme, h⟩
    rcases Option.bind_eq_some.mp h with ⟨phone', hmp, hfin⟩
    obtain ⟨⟨h0, h1⟩, rfl⟩ := rangeField_eq_some.mp hsc
    obtain ⟨⟨h2, h3⟩, rfl⟩ := rangeField_eq_some.mp hcf
    rw [← Option.some.inj hfin]
    exact ⟨h0, h1, h2, h3⟩

/-- C10 (witness): concrete constructions with `total_score`,
`lead_score` and `confidence` all `1/2` succeed and satisfy the
bounds. -/
theorem C10_witness :
    (0 ≤ (LeadScoreResponse.mk (1/2) .low .demo_request (1/2) false [] []).total_score
      ∧ (LeadScoreResponse.mk (1/2) .low .demo_request (1/2) false [] []).total_score ≤ 1
      ∧ 0 ≤ (LeadScoreResponse.mk (1/2) .low .demo_request (1/2) false [] []).confidence
      ∧ (LeadScoreResponse.mk (1/2) .low .demo_request (1/2) false [] []).confidence ≤ 1)
    ∧ (0 ≤ (CRMLeadData.mk [] (1/2) .low .demo_request (1/2) none none
          none none [] none [] false false false [] [] none).lead_score
      ∧ (CRMLeadData.mk [] (1/2) .low .demo_request (1/2) none none
          none none [] none [] false false false [] [] none).lead_score ≤ 1
      ∧ 0 ≤ (CRMLeadData.mk [] (1/2) .low .demo_request (1/2) none none
          none none [] none [] false false false [] [] none).confidence
      ∧ (CRMLeadData.mk [] (1/2) .low .demo_request (1/2) none none
          none none [] none [] false false false [] [] none).confidence ≤ 1) :=
  ⟨C10_downstream_unit_scale.1 (1/2) .low .demo_request (1/2) false [] []
    _ (by norm_num [LeadScoreResponse.validate, rangeField]),
   C10_downstream_unit_scale.2 [] (1/2) .low .demo_request (1/2) none
    none none none [] none [] false false false [] [] none
    _ (by norm_num [CRMLeadData.validate, rangeField, maxLenField,
      validate_email, validate_phone, pyStrip])⟩
